import Mathlib

/-!
Verification of the FST CUDA option pricer (src/option.cu) against its
natural-language specification.

The development shallowly embeds the pricing core in Lean:
* CUDA doubles are modelled as real numbers, `cufftDoubleComplex` as `ℂ`.
* A device buffer of length N is modelled as a function `ℕ → ℝ` (or `ℕ → ℂ`);
  a kernel launched over a 1-D grid becomes a pointwise function on indices.
* The external cuFFT library (an external collaborator per the spec) is
  modelled by its documented contract: the D2Z plan is the exact real-input
  DFT materialising bins 0..N/2, the Z2D plan is the unnormalized inverse
  DFT of the Hermitian extension of those bins.
* `parameters.h` is not part of src/, so the derived quantities it provides
  (`x_min()`, `x_max()`, `kappa()`) are modelled from the spec as read-only
  input fields of the parameter record.
-/

set_option maxHeartbeats 1000000

namespace FstCuda

noncomputable section

/-- Option payoff type from parameters.h usage in option.cu (`Call` / `Put`). -/
inductive OptionPayoffType
  | Call
  | Put
  deriving DecidableEq

/-- Option exercise style (`European` / `American`). -/
inductive OptionExerciseType
  | European
  | American
  deriving DecidableEq

/-- Jump-model selector (`None`, `Merton`, `Kou`, `CGMY`). -/
inductive JumpType
  | None
  | Merton
  | Kou
  | CGMY
  deriving DecidableEq

/-- Function `cuComplexExponential` from option.cu lines 48-55:
`exp(a+bi) = e^a cos b + i e^a sin b`. -/
def cuComplexExponential (x : ℂ) : ℂ :=
  ⟨Real.exp x.re * Real.cos x.im, Real.exp x.re * Real.sin x.im⟩

/-- Function `cuComplexScalarMult` from option.cu lines 72-78. -/
def cuComplexScalarMult (scalar : ℝ) (x : ℂ) : ℂ :=
  ⟨scalar * x.re, scalar * x.im⟩

/-- CUDA `cuCmul` (componentwise complex product as in cuComplex.h). -/
def cuCmul (x y : ℂ) : ℂ :=
  ⟨x.re * y.re - x.im * y.im, x.re * y.im + x.im * y.re⟩

/-- CUDA `cuCadd`. -/
def cuCadd (x y : ℂ) : ℂ :=
  ⟨x.re + y.re, x.im + y.im⟩

/-- CUDA `cuConj`. -/
def cuConj (x : ℂ) : ℂ :=
  ⟨x.re, -x.im⟩

/-- CUDA `cuCdiv` (complex division; cuComplex.h computes this quotient with
a scaling trick that is algebraically identical in exact arithmetic). -/
def cuCdiv (x y : ℂ) : ℂ :=
  ⟨(x.re * y.re + x.im * y.im) / (y.re * y.re + y.im * y.im),
   (x.im * y.re - x.re * y.im) / (y.re * y.re + y.im * y.im)⟩

/-- C `atan2`, modelled via the complex argument. -/
def atan2 (y x : ℝ) : ℝ := Complex.arg ⟨x, y⟩

/-- Function `cuComplexPower` from option.cu lines 57-70 (polar-form complex power). -/
def cuComplexPower (base exponent : ℂ) : ℂ :=
  let a := base.re
  let b := base.im
  let c := exponent.re
  let d := exponent.im
  let r := Complex.abs base
  let theta := atan2 b a
  let scalar := r ^ c * Real.exp (-theta * d)
  let angle := d * Real.log r + c * theta
  ⟨scalar * Real.cos angle, scalar * Real.sin angle⟩

@[simp]
lemma cuComplexExponential_re (x : ℂ) :
    (cuComplexExponential x).re = Real.exp x.re * Real.cos x.im := rfl

@[simp]
lemma cuComplexExponential_im (x : ℂ) :
    (cuComplexExponential x).im = Real.exp x.re * Real.sin x.im := rfl

/-- The source's `cuComplexExponential` computes the mathematical complex
exponential. -/
lemma cuComplexExponential_eq_exp (x : ℂ) :
    cuComplexExponential x = Complex.exp x := by
  apply Complex.ext
  · rw [Complex.exp_re]; rfl
  · rw [Complex.exp_im]; rfl

/-- The helper `cuCmul` is complex multiplication. -/
lemma cuCmul_eq_mul (x y : ℂ) : cuCmul x y = x * y := by
  apply Complex.ext
  · rw [Complex.mul_re]; rfl
  · rw [Complex.mul_im]; ring_nf; rfl

/-- The helper `cuComplexScalarMult` is multiplication by a real scalar. -/
lemma cuComplexScalarMult_eq (s : ℝ) (x : ℂ) :
    cuComplexScalarMult s x = (s : ℂ) * x := by
  apply Complex.ext
  · rw [Complex.mul_re]; simp [cuComplexScalarMult]
  · rw [Complex.mul_im]; simp [cuComplexScalarMult]

/-- The helper `cuCadd` is complex addition. -/
lemma cuCadd_eq_add (x y : ℂ) : cuCadd x y = x + y := by
  apply Complex.ext <;> simp [cuCadd]

/-! ## The pricing-parameter record

Fields mirror the `Parameters` record consumed by option.cu.

Modelled from the spec: `parameters.h` is not under src/, so the derived
grid bounds `x_min()`, `x_max()` (spec §3 "log-price domain half-width",
§4.1) and the drift compensator `kappa()` (spec §4.2) are carried as
read-only real-valued inputs rather than recomputed. -/
structure Params where
  startPrice : ℝ
  strikePrice : ℝ
  riskFreeRate : ℝ
  dividendRate : ℝ
  expiryTime : ℝ
  volatility : ℝ
  resolution : ℕ
  timesteps : ℕ
  optionPayoffType : OptionPayoffType
  optionExerciseType : OptionExerciseType
  jumpType : JumpType
  jumpMean : ℝ
  kappa : ℝ
  driftRate : ℝ
  mertonNormalStdev : ℝ
  kouUpJumpProbability : ℝ
  kouUpRate : ℝ
  kouDownRate : ℝ
  CGMY_C : ℝ
  CGMY_G : ℝ
  CGMY_M : ℝ
  CGMY_Y : ℝ
  x_min : ℝ
  x_max : ℝ

/-- Grid spacing `delta_x` as computed in computeGPU (option.cu line 462):
`(x_max - x_min) / (N - 1)` with `N` the resolution. -/
def delta_x (p : Params) : ℝ :=
  (p.x_max - p.x_min) / ((p.resolution : ℝ) - 1)

/-- Frequency spacing `delta_frequency` as computed in computeGPU (option.cu line 463):
`(N - 1) / (x_max - x_min) / N`. -/
def delta_frequency (p : Params) : ℝ :=
  ((p.resolution : ℝ) - 1) / (p.x_max - p.x_min) / (p.resolution : ℝ)

/-- Constant `MAX_BLOCK_SIZE` for the double-precision build (option.cu line 42). -/
def MAX_BLOCK_SIZE : ℕ := 1024

/-- Thread count of the `<<<max(N / MAX_BLOCK_SIZE, 1), min(N, MAX_BLOCK_SIZE)>>>`
launches used for the characteristic / jump-transform kernels (option.cu
lines 472, 482, 486, 492, 522, 528). -/
def charLaunchThreads (N : ℕ) : ℕ :=
  max (N / MAX_BLOCK_SIZE) 1 * min N MAX_BLOCK_SIZE

/-- Number of non-redundant frequency bins, `fourier_size = N / 2 + 1`
(option.cu line 514). -/
def fourierSize (N : ℕ) : ℕ := N / 2 + 1

/-! ## Kernels -/

/-- Kernel `solveODE` (option.cu lines 222-243), as the map it applies to the
FrequencyField: each thread reads bin `idx`, multiplies it by
`cuComplexExponential(delta_tau * psi)` and writes the product back to the
same bin. -/
def solveODE (ft characteristic : ℕ → ℂ) (from_time to_time : ℝ) : ℕ → ℂ :=
  fun idx =>
    let old_value := ft idx
    let psi := characteristic idx
    let delta_tau := to_time - from_time
    let exponent := cuComplexScalarMult delta_tau psi
    let exponential := cuComplexExponential exponent
    cuCmul old_value exponential

/-- Kernel `normalize` (option.cu lines 80-85): divide each entry by the
transform length. -/
def normalize (ft : ℕ → ℝ) (length : ℕ) : ℕ → ℝ :=
  fun idx => ft idx / (length : ℝ)

/-- Kernel `earlyExercise` (option.cu lines 87-100). -/
def earlyExercise (ft : ℕ → ℝ) (startPrice strikePrice x_min delta_x : ℝ)
    (ty : OptionPayoffType) : ℕ → ℝ :=
  fun idx =>
    let assetPrice := startPrice * Real.exp (x_min + idx * delta_x)
    match ty with
    | OptionPayoffType.Call => max (ft idx) (max (assetPrice - strikePrice) 0)
    | OptionPayoffType.Put => max (ft idx) (max (strikePrice - assetPrice) 0)

/-! ## Payoff initializer -/

/-- Host function `assetPricesAtPayoff` (option.cu lines 245-273):
`out[i] = startPrice * exp(x_min + i * delta_x)`. -/
def assetPricesAtPayoff (p : Params) : ℕ → ℝ :=
  fun i => p.startPrice * Real.exp (p.x_min + i * delta_x p)

/-- Host function `optionValuesAtPayoff` (option.cu lines 275-289). -/
def optionValuesAtPayoff (p : Params) (assetPrices : ℕ → ℝ) : ℕ → ℝ :=
  fun i =>
    match p.optionPayoffType with
    | OptionPayoffType.Call => max (assetPrices i - p.strikePrice) 0
    | OptionPayoffType.Put => max (p.strikePrice - assetPrices i) 0

/-! ## Claim C1: the Spectral Propagator -/

/-- C1. The Spectral Propagator (`solveODE`) maps, for every frequency bin
`idx`, the old FrequencyField value `ft idx` to
`ft idx * exp((to_time - from_time) * Ψ(idx))` — with the source's complex
exponential `exp(a+bi) = e^a (cos b + i sin b)` agreeing with the
mathematical `Complex.exp` — and the result is the value stored at the same
slot `idx` of the output field. -/
theorem solveODE_propagates (ft characteristic : ℕ → ℂ)
    (from_time to_time : ℝ) (idx : ℕ) :
    solveODE ft characteristic from_time to_time idx =
      ft idx * Complex.exp (((to_time - from_time : ℝ) : ℂ) * characteristic idx) := by
  rw [solveODE]
  rw [cuCmul_eq_mul, cuComplexExponential_eq_exp, cuComplexScalarMult_eq]

/-! ## Claim C5: grid scalars -/

/-- C5. For every resolution `N` that is a power of two with `N ≥ 2`, the
grid scalars of computeGPU satisfy `delta_x = (x_max - x_min)/(N-1)`,
`delta_frequency = (N-1)/((x_max - x_min)·N)`, and consequently
`x_min + (N-1)·delta_x = x_max`. -/
theorem grid_scalars (p : Params) (hN : 2 ≤ p.resolution)
    (hpow : ∃ k, p.resolution = 2 ^ k) :
    delta_x p = (p.x_max - p.x_min) / ((p.resolution : ℝ) - 1) ∧
    delta_frequency p =
      ((p.resolution : ℝ) - 1) / ((p.x_max - p.x_min) * (p.resolution : ℝ)) ∧
    p.x_min + ((p.resolution : ℝ) - 1) * delta_x p = p.x_max := by
  refine ⟨rfl, div_div _ _ _, ?_⟩
  have h2 : (2 : ℝ) ≤ (p.resolution : ℝ) := by exact_mod_cast hN
  have h1 : ((p.resolution : ℝ) - 1) ≠ 0 := by linarith
  rw [delta_x, mul_div_cancel₀ _ h1]
  ring

/-- Witness for C5 at a concrete parameter set with `N = 4 = 2^2`. -/
theorem grid_scalars_witness :
    delta_x
        { startPrice := 100, strikePrice := 100, riskFreeRate := 0,
          dividendRate := 0, expiryTime := 1, volatility := 0,
          resolution := 4, timesteps := 1,
          optionPayoffType := OptionPayoffType.Call,
          optionExerciseType := OptionExerciseType.European,
          jumpType := JumpType.None, jumpMean := 0, kappa := 0,
          driftRate := 0, mertonNormalStdev := 0, kouUpJumpProbability := 0,
          kouUpRate := 1, kouDownRate := 1, CGMY_C := 0, CGMY_G := 0,
          CGMY_M := 0, CGMY_Y := 0, x_min := 0, x_max := 1 } =
      ((1 : ℝ) - 0) / (((4 : ℕ) : ℝ) - 1) ∧
    delta_frequency
        { startPrice := 100, strikePrice := 100, riskFreeRate := 0,
          dividendRate := 0, expiryTime := 1, volatility := 0,
          resolution := 4, timesteps := 1,
          optionPayoffType := OptionPayoffType.Call,
          optionExerciseType := OptionExerciseType.European,
          jumpType := JumpType.None, jumpMean := 0, kappa := 0,
          driftRate := 0, mertonNormalStdev := 0, kouUpJumpProbability := 0,
          kouUpRate := 1, kouDownRate := 1, CGMY_C := 0, CGMY_G := 0,
          CGMY_M := 0, CGMY_Y := 0, x_min := 0, x_max := 1 } =
      (((4 : ℕ) : ℝ) - 1) / (((1 : ℝ) - 0) * ((4 : ℕ) : ℝ)) ∧
    (0 : ℝ) + (((4 : ℕ) : ℝ) - 1) *
        delta_x
          { startPrice := 100, strikePrice := 100, riskFreeRate := 0,
            dividendRate := 0, expiryTime := 1, volatility := 0,
            resolution := 4, timesteps := 1,
            optionPayoffType := OptionPayoffType.Call,
            optionExerciseType := OptionExerciseType.European,
            jumpType := JumpType.None, jumpMean := 0, kappa := 0,
            driftRate := 0, mertonNormalStdev := 0, kouUpJumpProbability := 0,
            kouUpRate := 1, kouDownRate := 1, CGMY_C := 0, CGMY_G := 0,
            CGMY_M := 0, CGMY_Y := 0, x_min := 0, x_max := 1 } = 1 :=
  grid_scalars _ (by norm_num) ⟨2, by norm_num⟩

/-! ## Claim C7: idempotence of the Early-Exercise Projector -/

/-- C7. The Early-Exercise Projector is idempotent: applying `earlyExercise`
twice, with the same start price, strike, grid offsets and payoff type,
yields exactly the same PriceField as applying it once. -/
theorem earlyExercise_idempotent (ft : ℕ → ℝ)
    (startPrice strikePrice x_min dx : ℝ) (ty : OptionPayoffType) :
    earlyExercise (earlyExercise ft startPrice strikePrice x_min dx ty)
        startPrice strikePrice x_min dx ty =
      earlyExercise ft startPrice strikePrice x_min dx ty := by
  funext idx
  cases ty <;> simp [earlyExercise, max_assoc]

/-! ## Claim C9: non-negativity -/

/-- C9. The Payoff Initializer produces a PriceField whose every entry is
non-negative, and the Early-Exercise Projector re-establishes this: for any
input PriceField (even one containing negative values), every entry after
applying `earlyExercise` is `≥ 0`, because each value is floored at an
intrinsic payoff that is itself floored at zero. -/
theorem fields_nonneg :
    (∀ (p : Params) (i : ℕ),
        0 ≤ optionValuesAtPayoff p (assetPricesAtPayoff p) i) ∧
    (∀ (ft : ℕ → ℝ) (startPrice strikePrice x_min dx : ℝ)
        (ty : OptionPayoffType) (idx : ℕ),
        0 ≤ earlyExercise ft startPrice strikePrice x_min dx ty idx) := by
  constructor
  · intro p i
    rw [optionValuesAtPayoff]
    cases p.optionPayoffType <;> exact le_max_right _ _
  · intro ft startPrice strikePrice x_min dx ty idx
    cases ty <;>
      exact le_trans (le_max_right _ 0) (le_max_right _ _)

/-! ## Claim C10: strict monotonicity of the asset-price grid -/

/-- C10. For every parameter set with `startPrice > 0`, `x_max > x_min` and
resolution `N ≥ 2`, the asset-price grid built by the Payoff Initializer is
strictly increasing in the grid index: `S_i < S_{i+1}` for every
`0 ≤ i < N - 1`. -/
theorem assetPrices_strictly_increasing (p : Params)
    (hS : 0 < p.startPrice) (hx : p.x_min < p.x_max)
    (hN : 2 ≤ p.resolution) (i : ℕ) (hi : i < p.resolution - 1) :
    assetPricesAtPayoff p i < assetPricesAtPayoff p (i + 1) := by
  rw [assetPricesAtPayoff]
  have h2 : (2 : ℝ) ≤ (p.resolution : ℝ) := by exact_mod_cast hN
  have hd : 0 < delta_x p := by
    apply div_pos (by linarith) (by linarith)
  apply mul_lt_mul_of_pos_left _ hS
  apply Real.exp_lt_exp.mpr
  have hcast : ((i + 1 : ℕ) : ℝ) = (i : ℝ) + 1 := by push_cast; ring
  rw [hcast]
  nlinarith [hd]

/-- Witness for C10: a concrete parameter set (`startPrice = 1`, grid on
`[0, 1]`, `N = 2`) where grid point 0 lies strictly below grid point 1. -/
theorem assetPrices_strictly_increasing_witness :
    assetPricesAtPayoff
        { startPrice := 1, strikePrice := 0, riskFreeRate := 0,
          dividendRate := 0, expiryTime := 1, volatility := 0,
          resolution := 2, timesteps := 1,
          optionPayoffType := OptionPayoffType.Call,
          optionExerciseType := OptionExerciseType.European,
          jumpType := JumpType.None, jumpMean := 0, kappa := 0,
          driftRate := 0, mertonNormalStdev := 0, kouUpJumpProbability := 0,
          kouUpRate := 1, kouDownRate := 1, CGMY_C := 0, CGMY_G := 0,
          CGMY_M := 0, CGMY_Y := 0, x_min := 0, x_max := 1 } 0 <
      assetPricesAtPayoff
        { startPrice := 1, strikePrice := 0, riskFreeRate := 0,
          dividendRate := 0, expiryTime := 1, volatility := 0,
          resolution := 2, timesteps := 1,
          optionPayoffType := OptionPayoffType.Call,
          optionExerciseType := OptionExerciseType.European,
          jumpType := JumpType.None, jumpMean := 0, kappa := 0,
          driftRate := 0, mertonNormalStdev := 0, kouUpJumpProbability := 0,
          kouUpRate := 1, kouDownRate := 1, CGMY_C := 0, CGMY_G := 0,
          CGMY_M := 0, CGMY_Y := 0, x_min := 0, x_max := 1 } (0 + 1) :=
  assetPrices_strictly_increasing _ (by norm_num) (by norm_num)
    (by norm_num) 0 (by norm_num)

@[simp]
lemma cmk_re (a b : ℝ) : (⟨a, b⟩ : ℂ).re = a := rfl

@[simp]
lemma cmk_im (a b : ℝ) : (⟨a, b⟩ : ℂ).im = b := rfl

/-! ## Characteristic Exponent Providers -/

/-- Signed-frequency folding shared by all four providers (option.cu lines
110-115, 138-143, 166-171, 202-207): `m = idx` if `idx ≤ N / 2`
(integer division), else `idx - N`. -/
def foldFrequency (N idx : ℕ) : ℝ :=
  if idx ≤ N / 2 then (idx : ℝ) else (idx : ℝ) - (N : ℝ)

lemma foldFrequency_of_le {N idx : ℕ} (h : idx ≤ N / 2) :
    foldFrequency N idx = (idx : ℝ) := if_pos h

/-- Kernel `prepareMertonJumpFT` (option.cu lines 102-125). -/
def prepareMertonJumpFT (delta_frequency : ℝ) (N : ℕ)
    (mertonNormalStdev driftRate : ℝ) : ℕ → ℂ :=
  fun idx =>
    let m := foldFrequency N idx
    let k := delta_frequency * m
    let real0 := Real.pi * k * mertonNormalStdev
    let real := -2 * real0 * real0
    let imag := -2 * Real.pi * k * driftRate
    cuComplexExponential ⟨real, imag⟩

/-- Kernel `prepareKouJumpFT` (option.cu lines 127-153). -/
def prepareKouJumpFT (delta_frequency : ℝ) (N : ℕ)
    (kouUpJumpProbability kouUpRate kouDownRate : ℝ) : ℕ → ℂ :=
  fun idx =>
    let p := kouUpJumpProbability
    let m := foldFrequency N idx
    let k := delta_frequency * m
    let up := cuCdiv ⟨p, 0⟩ ⟨1, 2 * Real.pi * k / kouUpRate⟩
    let down := cuCdiv ⟨1 - p, 0⟩ ⟨1, -2 * Real.pi * k / kouDownRate⟩
    cuCadd up down

/-- Kernel `prepareJumpModelCharacteristic` (option.cu lines 155-190).
The NULL `jump_ft` pointer of the source is modelled as `Option.none`. -/
def prepareJumpModelCharacteristic (jump_ft : Option (ℕ → ℂ))
    (riskFreeRate dividend volatility jumpMean kappa delta_frequency : ℝ)
    (N : ℕ) : ℕ → ℂ :=
  fun idx =>
    let m := foldFrequency N idx
    let k := delta_frequency * m
    let fst_term := volatility * Real.pi * k
    let psi : ℂ :=
      ⟨(-2 * fst_term * fst_term) - (riskFreeRate + jumpMean),
       (riskFreeRate - dividend - jumpMean * kappa - volatility * volatility / 2) *
         (2 * Real.pi * k)⟩
    match jump_ft with
    | Option.some j => cuCadd psi (cuComplexScalarMult jumpMean (cuConj (j idx)))
    | Option.none => psi

/-- Kernel `prepareCGMYCharacteristic` (option.cu lines 192-220);
`gamma = Γ(-Y)` is precomputed on the host (`tgamma(-params.CGMY_Y)`). -/
def prepareCGMYCharacteristic (N : ℕ)
    (delta_frequency C G M Y gamma : ℝ) : ℕ → ℂ :=
  fun idx =>
    let m := foldFrequency N idx
    let k := delta_frequency * m
    let w := 2 * Real.pi * k
    let MY := cuComplexPower ⟨M, -w⟩ ⟨Y, 0⟩
    let MG := cuComplexPower ⟨G, w⟩ ⟨Y, 0⟩
    cuComplexScalarMult (C * gamma)
      (cuCadd ⟨-(M ^ Y) - G ^ Y, 0⟩ (cuCadd MY MG))

/-!
No-fold variants: the same four kernels with the `idx - N` folding branch
removed (`m = idx` unconditionally).  They exist only to compare the
retained code against the branch-free program text, as the spec's open
question asks. -/

/-- Variant of `prepareMertonJumpFT` with the folding branch removed. -/
def prepareMertonJumpFTNoFold (delta_frequency : ℝ) (N : ℕ)
    (mertonNormalStdev driftRate : ℝ) : ℕ → ℂ :=
  fun idx =>
    let m := (idx : ℝ)
    let k := delta_frequency * m
    let real0 := Real.pi * k * mertonNormalStdev
    let real := -2 * real0 * real0
    let imag := -2 * Real.pi * k * driftRate
    cuComplexExponential ⟨real, imag⟩

/-- Variant of `prepareKouJumpFT` with the folding branch removed. -/
def prepareKouJumpFTNoFold (delta_frequency : ℝ) (N : ℕ)
    (kouUpJumpProbability kouUpRate kouDownRate : ℝ) : ℕ → ℂ :=
  fun idx =>
    let p := kouUpJumpProbability
    let m := (idx : ℝ)
    let k := delta_frequency * m
    let up := cuCdiv ⟨p, 0⟩ ⟨1, 2 * Real.pi * k / kouUpRate⟩
    let down := cuCdiv ⟨1 - p, 0⟩ ⟨1, -2 * Real.pi * k / kouDownRate⟩
    cuCadd up down

/-- Variant of `prepareJumpModelCharacteristic` with the folding branch removed. -/
def prepareJumpModelCharacteristicNoFold (jump_ft : Option (ℕ → ℂ))
    (riskFreeRate dividend volatility jumpMean kappa delta_frequency : ℝ)
    (N : ℕ) : ℕ → ℂ :=
  fun idx =>
    let m := (idx : ℝ)
    let k := delta_frequency * m
    let fst_term := volatility * Real.pi * k
    let psi : ℂ :=
      ⟨(-2 * fst_term * fst_term) - (riskFreeRate + jumpMean),
       (riskFreeRate - dividend - jumpMean * kappa - volatility * volatility / 2) *
         (2 * Real.pi * k)⟩
    match jump_ft with
    | Option.some j => cuCadd psi (cuComplexScalarMult jumpMean (cuConj (j idx)))
    | Option.none => psi

/-- Variant of `prepareCGMYCharacteristic` with the folding branch removed. -/
def prepareCGMYCharacteristicNoFold (N : ℕ)
    (delta_frequency C G M Y gamma : ℝ) : ℕ → ℂ :=
  fun idx =>
    let m := (idx : ℝ)
    let k := delta_frequency * m
    let w := 2 * Real.pi * k
    let MY := cuComplexPower ⟨M, -w⟩ ⟨Y, 0⟩
    let MG := cuComplexPower ⟨G, w⟩ ⟨Y, 0⟩
    cuComplexScalarMult (C * gamma)
      (cuCadd ⟨-(M ^ Y) - G ^ Y, 0⟩ (cuCadd MY MG))

/-- The jump-transform buffer `d_jump_ft` as populated by computeGPU
(option.cu lines 477-490): present only for Merton and Kou, NULL otherwise. -/
def jumpFT (p : Params) : Option (ℕ → ℂ) :=
  match p.jumpType with
  | JumpType.Merton =>
      Option.some (prepareMertonJumpFT (delta_frequency p) p.resolution
        p.mertonNormalStdev p.driftRate)
  | JumpType.Kou =>
      Option.some (prepareKouJumpFT (delta_frequency p) p.resolution
        p.kouUpJumpProbability p.kouUpRate p.kouDownRate)
  | _ => Option.none

/-- The CharacteristicField `d_characteristic` as populated by computeGPU
(option.cu lines 471-497): CGMY dispatches to its own kernel, every other
selector runs `prepareJumpModelCharacteristic`. -/
def characteristicGPU (p : Params) : ℕ → ℂ :=
  match p.jumpType with
  | JumpType.CGMY =>
      prepareCGMYCharacteristic p.resolution (delta_frequency p)
        p.CGMY_C p.CGMY_G p.CGMY_M p.CGMY_Y (Real.Gamma (-p.CGMY_Y))
  | _ =>
      prepareJumpModelCharacteristic (jumpFT p)
        p.riskFreeRate p.dividendRate p.volatility p.jumpMean p.kappa
        (delta_frequency p) p.resolution

/-- Variant of `jumpFT` with the folding branch removed from the jump kernels. -/
def jumpFTNoFold (p : Params) : Option (ℕ → ℂ) :=
  match p.jumpType with
  | JumpType.Merton =>
      Option.some (prepareMertonJumpFTNoFold (delta_frequency p) p.resolution
        p.mertonNormalStdev p.driftRate)
  | JumpType.Kou =>
      Option.some (prepareKouJumpFTNoFold (delta_frequency p) p.resolution
        p.kouUpJumpProbability p.kouUpRate p.kouDownRate)
  | _ => Option.none

/-- Variant of `characteristicGPU` with the folding branch removed from all providers. -/
def characteristicGPUNoFold (p : Params) : ℕ → ℂ :=
  match p.jumpType with
  | JumpType.CGMY =>
      prepareCGMYCharacteristicNoFold p.resolution (delta_frequency p)
        p.CGMY_C p.CGMY_G p.CGMY_M p.CGMY_Y (Real.Gamma (-p.CGMY_Y))
  | _ =>
      prepareJumpModelCharacteristicNoFold (jumpFTNoFold p)
        p.riskFreeRate p.dividendRate p.volatility p.jumpMean p.kappa
        (delta_frequency p) p.resolution

/-- The frequency attached to bin `idx`: `k = delta_frequency * m`. -/
def binFrequency (p : Params) (idx : ℕ) : ℝ :=
  delta_frequency p * foldFrequency p.resolution idx

/-- The spec's words for the No-Jump characteristic exponent (spec §4.2):
`Ψ(k) = −2(σπk)² − r + i·(r − q − σ²/2)(2πk)`.  Stated from the spec, to be
compared with the characteristic the code builds. -/
def psiNoJumpSpec (sigma r q k : ℝ) : ℂ :=
  ⟨-2 * (sigma * Real.pi * k) ^ 2 - r,
   (r - q - sigma ^ 2 / 2) * (2 * Real.pi * k)⟩

/-! ## Claim C2: the None-selector characteristic -/

/-- A concrete parameter set with jump-model selector `None` but a non-zero
jump intensity (`jumpMean = 1`), as the command line permits
(`--lambda 1` without any jump-model flag). -/
def pC2 : Params :=
  { startPrice := 1, strikePrice := 0, riskFreeRate := 0,
    dividendRate := 0, expiryTime := 1, volatility := 0,
    resolution := 2, timesteps := 1,
    optionPayoffType := OptionPayoffType.Call,
    optionExerciseType := OptionExerciseType.European,
    jumpType := JumpType.None, jumpMean := 1, kappa := 0,
    driftRate := 0, mertonNormalStdev := 0, kouUpJumpProbability := 0,
    kouUpRate := 1, kouDownRate := 1, CGMY_C := 0, CGMY_G := 0,
    CGMY_M := 0, CGMY_Y := 0, x_min := 0, x_max := 1 }

/-- Record `pC2` with the default jump intensity `jumpMean = 0`. -/
def pC2zero : Params :=
  { pC2 with jumpMean := 0 }

/-- Counterexample to C2: with selector `None` but `jumpMean = 1` (a
jump-model parameter the claim says is irrelevant), the characteristic at
bin 0 is `-1 ≠ 0 = Ψ(0)` of the claimed formula: the kernel subtracts
`riskFreeRate + jumpMean`, not `riskFreeRate`, even on the None path. -/
theorem noJump_psi_counterexample :
    pC2.jumpType = JumpType.None ∧
    characteristicGPU pC2 0 ≠
      psiNoJumpSpec pC2.volatility pC2.riskFreeRate pC2.dividendRate
        (binFrequency pC2 0) := by
  refine ⟨rfl, fun h => ?_⟩
  have h2 := congrArg Complex.re h
  simp only [characteristicGPU, jumpFT, pC2, prepareJumpModelCharacteristic,
    psiNoJumpSpec, binFrequency, foldFrequency, cmk_re] at h2
  norm_num at h2

/-- C2 as amended: on the `None` path the characteristic for bin `idx` is
`Ψ(k) = −2(σπk)² − (r + λ) + i·(r − q − λκ − σ²/2)(2πk)` with `λ = jumpMean`
and `κ = kappa`; when `λ = 0` (the default) this is exactly the claimed
No-Jump formula, and no Merton/Kou/CGMY kernel parameter enters. -/
theorem noJump_characteristic (p : Params)
    (hJ : p.jumpType = JumpType.None) (idx : ℕ) :
    characteristicGPU p idx =
      ⟨-2 * (p.volatility * Real.pi * binFrequency p idx) ^ 2
          - (p.riskFreeRate + p.jumpMean),
       (p.riskFreeRate - p.dividendRate - p.jumpMean * p.kappa
          - p.volatility ^ 2 / 2) * (2 * Real.pi * binFrequency p idx)⟩ ∧
    (p.jumpMean = 0 →
      characteristicGPU p idx =
        psiNoJumpSpec p.volatility p.riskFreeRate p.dividendRate
          (binFrequency p idx)) := by
  have hmain : characteristicGPU p idx =
      ⟨-2 * (p.volatility * Real.pi * binFrequency p idx) ^ 2
          - (p.riskFreeRate + p.jumpMean),
       (p.riskFreeRate - p.dividendRate - p.jumpMean * p.kappa
          - p.volatility ^ 2 / 2) * (2 * Real.pi * binFrequency p idx)⟩ := by
    simp only [characteristicGPU, jumpFT, hJ, prepareJumpModelCharacteristic,
      binFrequency]
    apply Complex.ext
    · simp only [cmk_re]; ring
    · simp only [cmk_im]; ring
  refine ⟨hmain, fun hlam => ?_⟩
  rw [hmain, psiNoJumpSpec, hlam]
  apply Complex.ext
  · simp only [cmk_re]; ring
  · simp only [cmk_im]; ring

/-- Witness for C2's amended theorem at `pC2zero` (selector `None`,
`jumpMean = 0`), bin 0. -/
theorem noJump_characteristic_witness :
    (characteristicGPU pC2zero 0 =
      ⟨-2 * (pC2zero.volatility * Real.pi * binFrequency pC2zero 0) ^ 2
          - (pC2zero.riskFreeRate + pC2zero.jumpMean),
       (pC2zero.riskFreeRate - pC2zero.dividendRate
          - pC2zero.jumpMean * pC2zero.kappa
          - pC2zero.volatility ^ 2 / 2) *
         (2 * Real.pi * binFrequency pC2zero 0)⟩ ∧
    (pC2zero.jumpMean = 0 →
      characteristicGPU pC2zero 0 =
        psiNoJumpSpec pC2zero.volatility pC2zero.riskFreeRate
          pC2zero.dividendRate (binFrequency pC2zero 0))) :=
  noJump_characteristic pC2zero rfl 0

/-! ## Claim C4: the frequency-folding branch -/

/-- Counterexample to C4: at `N = 4` the characteristic kernels are launched
with `max(N/1024,1)·min(N,1024) = 4` threads, so bin `3 > N/2 = 2` IS
populated, the folding branch is taken there, and the value it stores
differs from the branch-free value (`m = -1` versus `m = 3`): the branch is
not dead code inside the providers. -/
theorem fold_branch_not_dead :
    fourierSize 4 = 3 ∧
    3 < charLaunchThreads 4 ∧
    ¬ (3 ≤ 4 / 2) ∧
    prepareJumpModelCharacteristic Option.none 1 0 0 0 0 1 4 3 ≠
      prepareJumpModelCharacteristicNoFold Option.none 1 0 0 0 0 1 4 3 := by
  refine ⟨rfl, by decide, by decide, fun h => ?_⟩
  have h2 := congrArg Complex.im h
  simp only [prepareJumpModelCharacteristic, prepareJumpModelCharacteristicNoFold,
    foldFrequency, cmk_im] at h2
  norm_num at h2
  nlinarith [Real.pi_pos, h2]

/-- C4 as amended: on every bin the Spectral Propagator consumes
(`idx < fourier_size = N/2 + 1`, equivalently `idx ≤ N/2`), the fold leaves
the index unchanged and the characteristic value — for every provider,
i.e. every jump-model selector — is identical whether or not the
`idx - N` branch is retained.  (The branch is nevertheless live inside the
provider kernels, which are launched over all `N` bins of the size-`N`
characteristic buffer.) -/
theorem fold_irrelevant_on_consumed_bins (p : Params) (idx : ℕ)
    (h : idx < fourierSize p.resolution) :
    foldFrequency p.resolution idx = (idx : ℝ) ∧
    characteristicGPU p idx = characteristicGPUNoFold p idx := by
  have hle : idx ≤ p.resolution / 2 := Nat.lt_succ_iff.mp h
  have hfold := foldFrequency_of_le hle
  refine ⟨hfold, ?_⟩
  cases hJ : p.jumpType <;>
    simp only [characteristicGPU, characteristicGPUNoFold, jumpFT, jumpFTNoFold,
      hJ, prepareJumpModelCharacteristic, prepareJumpModelCharacteristicNoFold,
      prepareMertonJumpFT, prepareMertonJumpFTNoFold,
      prepareKouJumpFT, prepareKouJumpFTNoFold,
      prepareCGMYCharacteristic, prepareCGMYCharacteristicNoFold, hfold]

/-- Witness for C4's amended theorem: bin 0 at resolution 2 is consumed
(`0 < fourierSize 2 = 2`) and folded/branch-free values agree. -/
theorem fold_irrelevant_on_consumed_bins_witness :
    foldFrequency pC2.resolution 0 = ((0 : ℕ) : ℝ) ∧
    characteristicGPU pC2 0 = characteristicGPUNoFold pC2 0 :=
  fold_irrelevant_on_consumed_bins pC2 0 (by norm_num [fourierSize, pC2])

/-! ## Transform Engine (external cuFFT, modelled by its documented contract)

The forward D2Z plan materialises the exact DFT of the real input at bins
`0..N/2`; the inverse Z2D plan is the unnormalized inverse DFT of the
Hermitian extension of those bins (spec §4.3; cuFFT/FFTW real-data
transform documentation). -/

/-- Forward real-to-complex transform: bin `k` of the DFT of `x` over a
length-`N` window. -/
def rfftBin (N : ℕ) (x : ℕ → ℝ) (k : ℕ) : ℂ :=
  ∑ n ∈ Finset.range N,
    (x n : ℂ) * Complex.exp (-(2 * (Real.pi : ℂ) * k * n / N) * Complex.I)

/-- Hermitian extension of a half-spectrum of `N/2 + 1` stored bins to a
full length-`N` spectrum. -/
def hermExtend (N : ℕ) (F : ℕ → ℂ) (k : ℕ) : ℂ :=
  if k ≤ N / 2 then F k else (starRingEnd ℂ) (F (N - k))

/-- Inverse complex-to-real transform (unnormalized, as cuFFT's): entry `n`
of the inverse DFT of the Hermitian-extended spectrum. -/
def irfftBin (N : ℕ) (F : ℕ → ℂ) (n : ℕ) : ℝ :=
  (∑ k ∈ Finset.range N,
    hermExtend N F k * Complex.exp ((2 * (Real.pi : ℂ) * k * n / N) * Complex.I)).re

/-! ## Timestep Orchestrator (computeGPU, option.cu lines 437-552) -/

/-- One propagation sub-step of the timestep loop (option.cu lines 499-522):
forward transform, `solveODE` on the first `fourier_size = N/2 + 1` bins,
inverse transform, division by `N`. -/
def propagateStep (p : Params) (prices : ℕ → ℝ) (i : ℕ) : ℕ → ℝ :=
  let from_time := (i : ℝ) / (p.timesteps : ℝ) * p.expiryTime
  let to_time := ((i : ℝ) + 1) / (p.timesteps : ℝ) * p.expiryTime
  let ft := rfftBin p.resolution prices
  let ft2 := fun k =>
    if k < fourierSize p.resolution then
      solveODE ft (characteristicGPU p) from_time to_time k
    else ft k
  normalize (irfftBin p.resolution ft2) p.resolution

/-- One full timestep (option.cu lines 499-532): propagation, then the
Early-Exercise Projector exactly when the option style is American. -/
def gpuTimestep (p : Params) (prices : ℕ → ℝ) (i : ℕ) : ℕ → ℝ :=
  let prices2 := propagateStep p prices i
  if p.optionExerciseType = OptionExerciseType.American then
    earlyExercise prices2 p.startPrice p.strikePrice p.x_min (delta_x p)
      p.optionPayoffType
  else prices2

/-- The PriceField after the first `n` timesteps of the loop. -/
def gpuLoop (p : Params) (prices : ℕ → ℝ) : ℕ → ℕ → ℝ
  | 0 => prices
  | i + 1 => gpuTimestep p (gpuLoop p prices i) i

/-- Extraction index `answer_index = -x_min * (N - 1) / (x_max - x_min)`
(option.cu line 544). -/
def answerIndex (p : Params) : ℝ :=
  -p.x_min * ((p.resolution : ℝ) - 1) / (p.x_max - p.x_min)

/-- Finalization (option.cu lines 544-551): assert that `answer_index` is an
exact integer (a failed C `assert` aborts, modelled as `Option.none`), then
report the PriceField entry at that index. -/
def finalizeGPU (p : Params) (vals : ℕ → ℝ) : Option ℝ :=
  if answerIndex p = ((⌊answerIndex p⌋ : ℤ) : ℝ) then
    Option.some (vals (⌊answerIndex p⌋.toNat))
  else Option.none

/-- The price computeGPU reports: payoff initialization, `timesteps` loop
iterations, finalization. -/
def computeGPUPrice (p : Params) : Option ℝ :=
  finalizeGPU p
    (gpuLoop p (optionValuesAtPayoff p (assetPricesAtPayoff p)) p.timesteps)

/-! ## Claim C3: the Early-Exercise Projector runs iff American -/

/-- C3. Within a timestep, the Early-Exercise Projector runs if and only if
the option style is American: when American, every grid point `idx` of the
timestep's output is `max(v, intrinsic)` where `v` is the propagated value
at `idx`, `S = startPrice·exp(x_min + idx·delta_x)` and the intrinsic value
is `max(S - K, 0)` for a Call and `max(K - S, 0)` for a Put (so no grid
point escapes the floor and none is otherwise modified); when European the
propagated field is returned unchanged. -/
theorem earlyExercise_iff_american (p : Params) (prices : ℕ → ℝ) (i idx : ℕ) :
    (p.optionExerciseType = OptionExerciseType.American →
      gpuTimestep p prices i idx =
        max (propagateStep p prices i idx)
          (match p.optionPayoffType with
           | OptionPayoffType.Call =>
               max (p.startPrice * Real.exp (p.x_min + idx * delta_x p)
                 - p.strikePrice) 0
           | OptionPayoffType.Put =>
               max (p.strikePrice
                 - p.startPrice * Real.exp (p.x_min + idx * delta_x p)) 0)) ∧
    (p.optionExerciseType = OptionExerciseType.European →
      gpuTimestep p prices i idx = propagateStep p prices i idx) := by
  constructor
  · intro h
    cases hty : p.optionPayoffType <;>
      simp [gpuTimestep, h, earlyExercise, hty]
  · intro h
    simp [gpuTimestep, h]

/-- Witness for C3 at a concrete American Put and a concrete European Call. -/
theorem earlyExercise_iff_american_witness :
    gpuTimestep
        { pC2 with optionExerciseType := OptionExerciseType.American,
                   optionPayoffType := OptionPayoffType.Put }
        (fun _ => 0) 0 0 =
      max
        (propagateStep
          { pC2 with optionExerciseType := OptionExerciseType.American,
                     optionPayoffType := OptionPayoffType.Put }
          (fun _ => 0) 0 0)
        (max
          (({ pC2 with optionExerciseType := OptionExerciseType.American,
                       optionPayoffType := OptionPayoffType.Put } : Params).strikePrice
            - ({ pC2 with optionExerciseType := OptionExerciseType.American,
                          optionPayoffType := OptionPayoffType.Put } : Params).startPrice
              * Real.exp
                (({ pC2 with optionExerciseType := OptionExerciseType.American,
                             optionPayoffType := OptionPayoffType.Put } : Params).x_min
                  + (0 : ℕ)
                    * delta_x
                        { pC2 with
                          optionExerciseType := OptionExerciseType.American,
                          optionPayoffType := OptionPayoffType.Put })) 0) ∧
    gpuTimestep pC2 (fun _ => 0) 0 0 = propagateStep pC2 (fun _ => 0) 0 0 :=
  ⟨(earlyExercise_iff_american _ (fun _ => 0) 0 0).1 rfl,
   (earlyExercise_iff_american pC2 (fun _ => 0) 0 0).2 rfl⟩

/-! ## Claim C6: finalization index -/

/-- C6. At finalization the extraction index is
`-x_min·(N-1)/(x_max-x_min)`; whenever that quantity is an exact (natural)
integer `j` — which the spec states as a design invariant of the grid
construction in `parameters.h` — the assertion passes and the single value
reported is exactly the PriceField entry at index `j`. -/
theorem finalize_reports_answer_index (p : Params) (vals : ℕ → ℝ) (j : ℕ)
    (h : answerIndex p = (j : ℝ)) :
    answerIndex p = -p.x_min * ((p.resolution : ℝ) - 1) / (p.x_max - p.x_min) ∧
    finalizeGPU p vals = Option.some (vals j) := by
  refine ⟨rfl, ?_⟩
  rw [finalizeGPU, h]
  have hfl : ⌊((j : ℕ) : ℝ)⌋ = (j : ℤ) := Int.floor_natCast j
  rw [hfl]
  simp

/-- Witness for C6: on a grid with `x_min = 0` the index is the exact
integer 0 and the entry at 0 is reported. -/
theorem finalize_reports_answer_index_witness :
    answerIndex pC2 =
      -pC2.x_min * ((pC2.resolution : ℝ) - 1) / (pC2.x_max - pC2.x_min) ∧
    finalizeGPU pC2 (fun i => (i : ℝ) + 5) =
      Option.some (((0 : ℕ) : ℝ) + 5) :=
  finalize_reports_answer_index pC2 (fun i => (i : ℝ) + 5) 0
    (by norm_num [answerIndex, pC2])

/-! ## Claim C8: sensitivity of the None-path price to jump parameters -/

/-- Family of concrete parameter sets for the C8 analysis: selector `None`,
zero rates and volatility, unit expiry, two grid points on `[0, 1]`, one
timestep, European Call with strike 0, and jump intensity `lam` (settable
on the command line via `--lambda` without selecting any jump model). -/
def pJ (lam : ℝ) : Params :=
  { startPrice := 1, strikePrice := 0, riskFreeRate := 0,
    dividendRate := 0, expiryTime := 1, volatility := 0,
    resolution := 2, timesteps := 1,
    optionPayoffType := OptionPayoffType.Call,
    optionExerciseType := OptionExerciseType.European,
    jumpType := JumpType.None, jumpMean := lam, kappa := 0,
    driftRate := 0, mertonNormalStdev := 0, kouUpJumpProbability := 0,
    kouUpRate := 1, kouDownRate := 1, CGMY_C := 0, CGMY_G := 0,
    CGMY_M := 0, CGMY_Y := 0, x_min := 0, x_max := 1 }

lemma exp_neg_pi_mul_I : Complex.exp (-((Real.pi : ℂ) * Complex.I)) = -1 := by
  rw [Complex.exp_neg, Complex.exp_pi_mul_I]
  norm_num

lemma pJ_characteristic (lam : ℝ) (idx : ℕ) :
    characteristicGPU (pJ lam) idx = ⟨-lam, 0⟩ := by
  simp only [characteristicGPU, jumpFT, pJ, prepareJumpModelCharacteristic]
  apply Complex.ext
  · simp
  · simp

lemma pJ_init (lam : ℝ) :
    optionValuesAtPayoff (pJ lam) (assetPricesAtPayoff (pJ lam)) =
      fun n : ℕ => Real.exp (n : ℝ) := by
  funext n
  simp only [optionValuesAtPayoff, assetPricesAtPayoff, delta_x, pJ]
  norm_num
  exact (Real.exp_pos _).le

lemma pJ_step (lam : ℝ) :
    propagateStep (pJ lam) (fun n : ℕ => Real.exp (n : ℝ)) 0 0 = Real.exp (-lam) := by
  have hres : (pJ lam).resolution = 2 := rfl
  have hts : (pJ lam).timesteps = 1 := rfl
  have hexpiry : (pJ lam).expiryTime = 1 := rfl
  simp only [propagateStep, normalize, irfftBin, hermExtend, fourierSize,
    solveODE, rfftBin, pJ_characteristic, hres, hts, hexpiry,
    Finset.sum_range_succ, Finset.sum_range_zero]
  norm_num [cuCmul, cuComplexScalarMult, cuComplexExponential,
    Complex.ext_iff, Complex.exp_re, Complex.exp_im,
    Complex.mul_re, Complex.mul_im, Complex.add_re, Complex.add_im,
    Complex.I_re, Complex.I_im, Complex.ofReal_re, Complex.ofReal_im,
    Complex.div_re, Complex.div_im, Complex.neg_re, Complex.neg_im,
    Real.cos_pi, Real.sin_pi, Real.exp_zero]
  ring_nf

lemma pJ_price (lam : ℝ) :
    computeGPUPrice (pJ lam) = Option.some (Real.exp (-lam)) := by
  have hidx : answerIndex (pJ lam) = ((0 : ℕ) : ℝ) := by
    simp [answerIndex, pJ]
  have hloop : gpuLoop (pJ lam)
      (optionValuesAtPayoff (pJ lam) (assetPricesAtPayoff (pJ lam)))
      (pJ lam).timesteps =
      propagateStep (pJ lam) (fun n : ℕ => Real.exp (n : ℝ)) 0 := by
    rw [pJ_init]
    show gpuTimestep (pJ lam) (fun n : ℕ => Real.exp (n : ℝ)) 0 = _
    have hex : (pJ lam).optionExerciseType = OptionExerciseType.European := rfl
    simp [gpuTimestep, hex]
  rw [computeGPUPrice, hloop]
  simp only [finalizeGPU, hidx, Int.floor_natCast]
  norm_num [pJ_step]

/-- Counterexample to C8: two runs agreeing on every shared pricing
parameter (start price, strike, rates, volatility, expiry, resolution,
timesteps, style, payoff, grid bounds, even the compensator kappa), both
with jump-model selector `None`, but with jump intensities `jumpMean = 0`
and `jumpMean = 1`, report different prices (`1` versus `exp (-1)`): the
None path reads the jump intensity. -/
theorem noJump_price_depends_on_jumpMean :
    (pJ 0).jumpType = JumpType.None ∧
    (pJ 1).jumpType = JumpType.None ∧
    (pJ 0).startPrice = (pJ 1).startPrice ∧
    (pJ 0).strikePrice = (pJ 1).strikePrice ∧
    (pJ 0).riskFreeRate = (pJ 1).riskFreeRate ∧
    (pJ 0).dividendRate = (pJ 1).dividendRate ∧
    (pJ 0).volatility = (pJ 1).volatility ∧
    (pJ 0).expiryTime = (pJ 1).expiryTime ∧
    (pJ 0).resolution = (pJ 1).resolution ∧
    (pJ 0).timesteps = (pJ 1).timesteps ∧
    (pJ 0).optionExerciseType = (pJ 1).optionExerciseType ∧
    (pJ 0).optionPayoffType = (pJ 1).optionPayoffType ∧
    (pJ 0).x_min = (pJ 1).x_min ∧
    (pJ 0).x_max = (pJ 1).x_max ∧
    (pJ 0).kappa = (pJ 1).kappa ∧
    computeGPUPrice (pJ 0) ≠ computeGPUPrice (pJ 1) := by
  refine ⟨rfl, rfl, rfl, rfl, rfl, rfl, rfl, rfl, rfl, rfl, rfl, rfl, rfl,
    rfl, rfl, ?_⟩
  rw [pJ_price, pJ_price]
  intro h
  have h2 := Option.some.inj h
  rw [neg_zero, Real.exp_zero] at h2
  have hlt : Real.exp (-1) < 1 := by
    have h3 := Real.exp_lt_exp.mpr (show (-1 : ℝ) < 0 by norm_num)
    rwa [Real.exp_zero] at h3
  rw [← h2] at hlt
  exact lt_irrefl _ hlt

/-- C8 as amended: when the jump-model selector is `None` in both runs, the
computed price is unaffected by the Merton-, Kou- and CGMY-specific
parameters (`mertonNormalStdev`, `driftRate`, the Kou probability and
rates, and CGMY C/G/M/Y); it is NOT independent of the jump intensity
`jumpMean` (nor of the compensator `kappa`), which enter the None-path
characteristic, so two runs must also agree on those to report the same
price. -/
theorem noJump_price_ignores_model_params (p q : Params)
    (hp : p.jumpType = JumpType.None) (hq : q.jumpType = JumpType.None)
    (h1 : p.startPrice = q.startPrice) (h2 : p.strikePrice = q.strikePrice)
    (h3 : p.riskFreeRate = q.riskFreeRate)
    (h4 : p.dividendRate = q.dividendRate)
    (h5 : p.expiryTime = q.expiryTime) (h6 : p.volatility = q.volatility)
    (h7 : p.resolution = q.resolution) (h8 : p.timesteps = q.timesteps)
    (h9 : p.optionPayoffType = q.optionPayoffType)
    (h10 : p.optionExerciseType = q.optionExerciseType)
    (h11 : p.x_min = q.x_min) (h12 : p.x_max = q.x_max)
    (h13 : p.jumpMean = q.jumpMean) (h14 : p.kappa = q.kappa) :
    computeGPUPrice p = computeGPUPrice q := by
  have hdf : delta_frequency p = delta_frequency q := by
    rw [delta_frequency, delta_frequency, h7, h11, h12]
  have hdx : delta_x p = delta_x q := by
    rw [delta_x, delta_x, h7, h11, h12]
  have hchar : characteristicGPU p = characteristicGPU q := by
    simp only [characteristicGPU, jumpFT, hp, hq]
    rw [h3, h4, h6, h13, h14, hdf, h7]
  have hstep : ∀ (prices : ℕ → ℝ) (i : ℕ),
      gpuTimestep p prices i = gpuTimestep q prices i := by
    intro prices i
    simp only [gpuTimestep, propagateStep, normalize, fourierSize]
    rw [hchar, h5, h7, h8, h1, h2, h9, h10, h11, hdx]
  have hloop : ∀ (n : ℕ) (prices : ℕ → ℝ),
      gpuLoop p prices n = gpuLoop q prices n := by
    intro n
    induction n with
    | zero => intro prices; rfl
    | succ k ih =>
        intro prices
        show gpuTimestep p (gpuLoop p prices k) k =
          gpuTimestep q (gpuLoop q prices k) k
        rw [ih, hstep]
  have hinit : optionValuesAtPayoff p (assetPricesAtPayoff p) =
      optionValuesAtPayoff q (assetPricesAtPayoff q) := by
    funext i
    have h9' := h9
    cases hpt : p.optionPayoffType <;> rw [hpt] at h9' <;>
      simp only [optionValuesAtPayoff, assetPricesAtPayoff, hpt, ← h9'] <;>
      rw [h1, h2, h11, hdx]
  have hai : answerIndex p = answerIndex q := by
    rw [answerIndex, answerIndex, h7, h11, h12]
  have hfin : finalizeGPU p = finalizeGPU q := by
    funext vals
    simp only [finalizeGPU, hai]
  rw [computeGPUPrice, computeGPUPrice, hinit, h8, hloop, hfin]

/-- Witness for C8's amended theorem: changing only CGMY and Merton
parameters under the `None` selector leaves the price unchanged. -/
theorem noJump_price_ignores_model_params_witness :
    computeGPUPrice (pJ 0) =
      computeGPUPrice
        { pJ 0 with CGMY_C := 7, CGMY_G := 5, CGMY_M := 4, CGMY_Y := 3,
                    mertonNormalStdev := 3, driftRate := 2,
                    kouUpJumpProbability := 1, kouUpRate := 9,
                    kouDownRate := 8 } :=
  noJump_price_ignores_model_params _ _ rfl rfl rfl rfl rfl rfl rfl rfl rfl
    rfl rfl rfl rfl rfl rfl rfl

end

end FstCuda
